import Mathlib

/-!
Shallow embedding of the TalentScout hiring-assistant core
(`chatbot.py` and `utils.py`), together with theorems settling the
behavioural claims about it.

Python strings are modelled as `String` (with `.data : List Char` for the
character-level operations), dictionaries with a fixed key set as structures
whose fields are `Option`-valued (a `none` field is an absent key), and
fallible code (`KeyError`, `IndexError`) as `Option`-returning functions.
The chatbot instance state (`self.*`) is an explicit `BotState` threaded
through the functions; in-place mutation of the caller's dictionary is
modelled by returning the caller-visible dictionary alongside the reply.
-/

/-- Python `str.lower()` on a character list (ASCII-adequate). -/
def pyLower (l : List Char) : List Char := l.map Char.toLower

/-- Python `str.strip()`: drop leading and trailing whitespace. -/
def pyStrip (l : List Char) : List Char :=
  ((l.dropWhile Char.isWhitespace).reverse.dropWhile Char.isWhitespace).reverse

/-- Python `s.split(sep)` for a one-character separator: keeps empty pieces,
`"".split(sep) = [""]`. -/
def splitOnChar (sep : Char) : List Char → List (List Char)
  | [] => [[]]
  | c :: rest =>
    if c = sep then [] :: splitOnChar sep rest
    else
      match splitOnChar sep rest with
      | [] => [[c]]
      | h :: t => (c :: h) :: t

/-- Helper for `splitWs`: accumulates the current word (reversed). -/
def splitWsAux : List Char → List Char → List (List Char)
  | [], acc => if acc.isEmpty then [] else [acc.reverse]
  | c :: rest, acc =>
    if c.isWhitespace then
      if acc.isEmpty then splitWsAux rest []
      else acc.reverse :: splitWsAux rest []
    else splitWsAux rest (c :: acc)

/-- Python `str.split()` with no argument: split on whitespace runs,
dropping empty pieces. -/
def splitWs (l : List Char) : List (List Char) := splitWsAux l []

/-- Python `needle in haystack` (substring test), step 1: match at the front. -/
def startsWithList : List Char → List Char → Bool
  | [], _ => true
  | _ :: _, [] => false
  | a :: as, b :: bs => a = b && startsWithList as bs

/-- Python `needle in haystack` (substring test at any position). -/
def containsSub (needle : List Char) : List Char → Bool
  | [] => needle.isEmpty
  | c :: rest => startsWithList needle (c :: rest) || containsSub needle rest

/-- `len(''.join(filter(str.isdigit, s)))`: number of digit characters. -/
def digitCount (s : String) : Nat := (s.data.filter Char.isDigit).length

/-- utils.validate_phone: true iff the digit count is between 10 and 15. -/
def validate_phone (phone : String) : Bool :=
  decide (10 ≤ digitCount phone) && decide (digitCount phone ≤ 15)

/-- Tail of a regex match of `<[^>]*>` starting at a `<`: drop everything up
to and including the first `>`; `none` when no `>` remains (no match). -/
def dropThroughGt : List Char → Option (List Char)
  | [] => none
  | c :: rest => if c = '>' then some rest else dropThroughGt rest

/-- `re.sub(r'<[^>]*>', '', text)` scanned left to right: every `<` that is
followed by a later `>` is removed together with everything up to that first
`>`. The fuel argument only bounds the recursion; `l.length` always
suffices, since every step consumes at least one character. -/
def stripTagsFuel : Nat → List Char → List Char
  | 0, l => l
  | _ + 1, [] => []
  | fuel + 1, c :: rest =>
    if c = '<' then
      match dropThroughGt rest with
      | some rest2 => stripTagsFuel fuel rest2
      | none => c :: stripTagsFuel fuel rest
    else c :: stripTagsFuel fuel rest

/-- All tag substrings removed, as in `re.sub(r'<[^>]*>', '', text)`. -/
def stripTags (l : List Char) : List Char := stripTagsFuel l.length l

/-- The character class of `re.sub(r'[;\\\\/]', '', text)`. -/
def isBannedChar (c : Char) : Bool := c = ';' || c = '\\' || c = '/'

/-- utils.sanitize_input: strip tag substrings, delete `;`, backslash and
`/`, then strip surrounding whitespace. -/
def sanitize_input (text : String) : String :=
  String.mk (pyStrip ((stripTags text.data).filter (fun c => !isBannedChar c)))

/-- utils.analyze_sentiment positive keyword set. -/
def positive_words : List String :=
  ["great", "good", "excellent", "amazing", "love", "enjoy", "passionate"]

/-- utils.analyze_sentiment negative keyword set. -/
def negative_words : List String :=
  ["bad", "difficult", "hard", "problem", "issue", "challenging"]

/-- The tokens of `text.lower().split()`. -/
def tokensOf (text : String) : List String :=
  (splitWs (pyLower text.data)).map String.mk

/-- utils.analyze_sentiment: Python `set(words)` is modelled by
`List.dedup`, and the size of its intersection with a keyword set is the
number of distinct tokens belonging to that set. -/
def analyze_sentiment (text : String) : String :=
  let words := (tokensOf text).dedup
  let positive_count := (words.filter (fun w => positive_words.contains w)).length
  let negative_count := (words.filter (fun w => negative_words.contains w)).length
  if positive_count > negative_count then "positive"
  else if negative_count > positive_count then "negative"
  else "neutral"

/-- A chat message (`{"role": ..., "content": ...}`). -/
structure ChatMessage where
  role : String
  content : String
deriving DecidableEq

/-- The `candidate_info` dictionary. A `none` field is an absent key. -/
structure CandidateInfo where
  name : Option String := none
  email : Option String := none
  phone : Option String := none
  experience : Option String := none
  position : Option String := none
  location : Option String := none
  tech_stack : Option (List String) := none
  tech_questions_asked : Option Bool := none
  sentiment_history : Option (List String) := none
deriving DecidableEq

/-- The mutable chatbot instance state set up in `__init__`. -/
structure BotState where
  conversation_started : Bool
  current_step : String
  tech_questions_cache : List String
  current_question_index : Nat
deriving DecidableEq

/-- The state right after `__init__` (the question cache starts empty). -/
def initState : BotState :=
  { conversation_started := false, current_step := "name",
    tech_questions_cache := [], current_question_index := 0 }

/-- chatbot.get_initial_greeting. -/
def get_initial_greeting : String :=
  "Hello! I'm the TalentScout Hiring Assistant. I'll be helping with your initial screening process. \nCould you please tell me your full name to get started?"

/-- chatbot.get_next_question: the per-step prompt, `""` for an
unrecognized step. -/
def get_next_question (current_step : String) : String :=
  if current_step = "name" then "Could you please tell me your full name?"
  else if current_step = "email" then "What's your email address?"
  else if current_step = "phone" then "What's your phone number?"
  else if current_step = "experience" then "How many years of experience do you have in your field?"
  else if current_step = "position" then "What position(s) are you interested in?"
  else if current_step = "location" then "What's your current location?"
  else if current_step = "tech_stack" then "Please list your tech stack (programming languages, frameworks, databases, tools), separated by commas:"
  else ""

/-- chatbot.validate_response. -/
def validate_response (step response : String) : Bool :=
  if response.data.isEmpty then false
  else if step = "email" then response.data.contains '@' && response.data.contains '.'
  else if step = "phone" then decide (10 ≤ digitCount response)
  else if step = "experience" then response.data.any Char.isDigit
  else true

/-- chatbot.should_end_conversation keyword list. -/
def exit_keywords : List String := ["exit", "quit", "stop", "bye", "goodbye"]

/-- chatbot.should_end_conversation: some exit keyword occurs as a substring
of the lower-cased input. -/
def should_end_conversation (user_input : String) : Bool :=
  exit_keywords.any (fun keyword => containsSub keyword.data (pyLower user_input.data))

/-- The three per-technology template questions of generate_tech_questions. -/
def tech_templates (tech : String) : List String :=
  ["What are the main features and benefits of " ++ tech ++ "?",
   "Can you describe a challenging problem you solved using " ++ tech ++ "?",
   "What are some best practices when working with " ++ tech ++ "?"]

/-- The two fixed general questions of generate_tech_questions. -/
def general_questions : List String :=
  ["How do you approach learning new technologies?",
   "How do you ensure code quality in your projects?"]

/-- chatbot.generate_tech_questions: three template questions for each of
the first three technologies, then the two general questions, truncated to
five; `experience_level` is accepted but never used. -/
def generate_tech_questions (tech_stack : List String) (experience_level : String) : List String :=
  ((((tech_stack.take 3).map tech_templates).flatten) ++ general_questions).take 5

/-- The tech_stack branch of update_candidate_info:
`[tech.strip() for tech in user_input.split(',')]`. -/
def parse_tech_input (user_input : String) : List String :=
  (splitOnChar ',' user_input.data).map (fun piece => String.mk (pyStrip piece))

/-- chatbot.update_candidate_info: operates on (and returns) a copy of the
mapping; the two optional keys are initialized when absent. -/
def update_candidate_info (current_step user_input : String)
    (candidate_info : CandidateInfo) : CandidateInfo :=
  let u := { candidate_info with
    tech_stack := some (candidate_info.tech_stack.getD []),
    tech_questions_asked := some (candidate_info.tech_questions_asked.getD false) }
  if current_step = "name" then { u with name := some user_input }
  else if current_step = "email" then { u with email := some user_input }
  else if current_step = "phone" then { u with phone := some user_input }
  else if current_step = "experience" then { u with experience := some user_input }
  else if current_step = "position" then { u with position := some user_input }
  else if current_step = "location" then { u with location := some user_input }
  else if current_step = "tech_stack" then { u with tech_stack := some (parse_tech_input user_input) }
  else u

/-- chatbot.determine_next_step step order. -/
def step_sequence : List String :=
  ["name", "email", "phone", "experience", "position", "location", "tech_stack", "tech_questions"]

/-- chatbot.determine_next_step. -/
def determine_next_step (current_step : String) : String :=
  match step_sequence.findIdx? (fun s => s = current_step) with
  | some i =>
    if i < step_sequence.length - 1 then (step_sequence.drop (i + 1)).headD ""
    else current_step
  | none => "name"

/-- `messages[-1]["content"] if messages else ""`. -/
def lastContent (messages : List ChatMessage) : String :=
  match messages.getLast? with
  | some m => m.content
  | none => ""

/-- The closing message of handle_tech_questions. -/
def closing_message : String :=
  "Thank you for answering all the technical questions. Your responses have been recorded. The TalentScout team will review your application and get back to you soon. Is there anything else you'd like to mention?"

/-- The first-entry message of handle_tech_questions. -/
def intro_message (tech_stack : List String) (first_question : String) : String :=
  "Great! Based on your tech stack (" ++ String.intercalate ", " tech_stack ++ "), I'd like to ask you a few technical questions.\n\nQuestion 1: " ++ first_question

/-- The follow-up message of handle_tech_questions. -/
def next_question_message (index : Nat) (question : String) : String :=
  "Thank you for your answer.\n\nQuestion " ++ toString (index + 1) ++ ": " ++ question

/-- chatbot.handle_tech_questions. A Python `KeyError`/`IndexError` surfaces
as `none`; the returned `CandidateInfo` is the dictionary that was passed
in, after any in-place mutation. -/
def handle_tech_questions (st : BotState) (candidate_info : CandidateInfo)
    (user_response : String) : Option (String × BotState × CandidateInfo) :=
  if st.tech_questions_cache.isEmpty then
    match candidate_info.tech_stack, candidate_info.experience with
    | some ts, some ex =>
      let qs := generate_tech_questions ts ex
      match qs.get? 0 with
      | some q0 =>
        some (intro_message ts q0,
              { st with tech_questions_cache := qs, current_question_index := 0 },
              candidate_info)
      | none => none
    | _, _ => none
  else
    let idx := st.current_question_index + 1
    let st2 := { st with current_question_index := idx }
    if st.tech_questions_cache.length ≤ idx then
      some (closing_message, st2,
            { candidate_info with tech_questions_asked := some true })
    else
      match st.tech_questions_cache.get? idx with
      | some q => some (next_question_message idx q, st2, candidate_info)
      | none => none

/-- The fixed farewell of get_response. -/
def farewell_message : String :=
  "Thank you for your time. The conversation has ended. Have a great day!"

/-- The re-prompt emitted on a failed validation. -/
def rejection_message (step : String) : String :=
  "I'm sorry, but I need a valid " ++ step ++ ". " ++ get_next_question step

/-- chatbot.get_response. Returns the reply, the new instance state, and the
caller's dictionary after the call. Note that the updated copy produced by
`update_candidate_info` is only used locally (`candidate_info` is rebound to
it inside the Python function) and is never visible to the caller. -/
def get_response (st : BotState) (messages : List ChatMessage)
    (candidate_info : CandidateInfo) : Option (String × BotState × CandidateInfo) :=
  if !st.conversation_started then
    some (get_initial_greeting, { st with conversation_started := true }, candidate_info)
  else
    let last_message := lastContent messages
    if should_end_conversation last_message then
      some (farewell_message, st, candidate_info)
    else if st.current_step = "tech_questions" then
      handle_tech_questions st candidate_info last_message
    else if !validate_response st.current_step last_message then
      some (rejection_message st.current_step, st, candidate_info)
    else
      let updated := update_candidate_info st.current_step last_message candidate_info
      let st2 := { st with current_step := determine_next_step st.current_step }
      if st2.current_step = "tech_questions" then
        match handle_tech_questions st2 updated "" with
        | some (resp, st3, _) => some (resp, st3, candidate_info)
        | none => none
      else
        some ("Thank you. " ++ get_next_question st2.current_step, st2, candidate_info)

/-- The record `app.py` initializes a session with. -/
def appInitialInfo : CandidateInfo :=
  { name := some "", email := some "", phone := some "", experience := some "",
    position := some "", location := some "", tech_stack := some [],
    tech_questions_asked := some false, sentiment_history := some [] }

/-- A started session sitting at a given step, question cache still empty. -/
def stateAt (s : String) : BotState :=
  { conversation_started := true, current_step := s,
    tech_questions_cache := [], current_question_index := 0 }

/-- Distinct tokens of a text shared with the positive keyword set. -/
def positiveShared (text : String) : Nat :=
  ((tokensOf text).toFinset ∩ positive_words.toFinset).card

/-- Distinct tokens of a text shared with the negative keyword set. -/
def negativeShared (text : String) : Nat :=
  ((tokensOf text).toFinset ∩ negative_words.toFinset).card

/-- A session in the technical-questions phase with one cached question,
about to hear the answer to it. -/
def exhaustState : BotState :=
  { conversation_started := true, current_step := "tech_questions",
    tech_questions_cache := ["q"], current_question_index := 0 }

/-- The output of `get_response` on `exhaustState` for a non-exit answer:
the closing message, the advanced index, and the mutated caller record. -/
def exhaustOut : String × BotState × CandidateInfo :=
  (closing_message,
   { conversation_started := true, current_step := "tech_questions",
     tech_questions_cache := ["q"], current_question_index := 1 },
   { appInitialInfo with tech_questions_asked := some true })

/-- The generated question list always ends with the two general questions
before truncation, so it has at most 5 entries. -/
theorem generate_tech_questions_length_le (ts : List String) (e : String) :
    (generate_tech_questions ts e).length ≤ 5 := by
  unfold generate_tech_questions
  rw [List.length_take]
  exact min_le_left _ _

/-- The generated question list has at least the two general questions. -/
theorem generate_tech_questions_length_ge (ts : List String) (e : String) :
    2 ≤ (generate_tech_questions ts e).length := by
  unfold generate_tech_questions
  rw [List.length_take, List.length_append]
  have h2 : general_questions.length = 2 := rfl
  rw [h2]
  omega

/-- The generated question list is never empty. -/
theorem generate_tech_questions_ne_nil (ts : List String) (e : String) :
    generate_tech_questions ts e ≠ [] := by
  intro h
  have hge := generate_tech_questions_length_ge ts e
  rw [h] at hge
  simp at hge

/-- Question 0 of a freshly generated list exists. -/
theorem generate_tech_questions_get_zero (ts : List String) (e : String) :
    (generate_tech_questions ts e)[0]?
      = some ((generate_tech_questions ts e).headD "") := by
  cases h : generate_tech_questions ts e with
  | nil => exact absurd h (generate_tech_questions_ne_nil ts e)
  | cons a t => simp

/-- C10: for every tech-stack list (including the empty one) and every
experience string, generate_tech_questions returns between 2 and 5
questions, because the two fixed general questions are appended before
truncation; consequently the first entry into the tech-questions phase,
which reads question 0 of the freshly generated set, never fails. -/
theorem C10_question_count_bounds :
    (∀ ts e, 2 ≤ (generate_tech_questions ts e).length
      ∧ (generate_tech_questions ts e).length ≤ 5)
    ∧ (∀ st ci resp ts e, st.tech_questions_cache = [] →
        ci.tech_stack = some ts → ci.experience = some e →
        (handle_tech_questions st ci resp).isSome = true) := by
  constructor
  · exact fun ts e =>
      ⟨generate_tech_questions_length_ge ts e, generate_tech_questions_length_le ts e⟩
  · intro st ci resp ts e hcache hts hex
    unfold handle_tech_questions
    rw [hcache, hts, hex]
    simp [generate_tech_questions_get_zero]

/-- C10 witness: the bounds and the safe first entry at a concrete empty
tech stack. -/
theorem C10_question_count_bounds_witness :
    (2 ≤ (generate_tech_questions [] "").length
      ∧ (generate_tech_questions [] "").length ≤ 5)
    ∧ (handle_tech_questions (stateAt "tech_questions") appInitialInfo "").isSome = true :=
  ⟨C10_question_count_bounds.1 [] "",
   C10_question_count_bounds.2 (stateAt "tech_questions") appInitialInfo "" [] "" rfl rfl rfl⟩

/-- C2: parsing the tech-stack input "Python, React, Node.js, Go" yields the
four technologies in order, and generate_tech_questions on them returns
exactly the 3 Python-parameterized questions followed by the first 2
React-parameterized questions, for every experience argument; the
experience argument never affects the output. -/
theorem C2_truncated_questions :
    parse_tech_input "Python, React, Node.js, Go" = ["Python", "React", "Node.js", "Go"]
    ∧ (∀ experience_level,
        generate_tech_questions ["Python", "React", "Node.js", "Go"] experience_level
        = ["What are the main features and benefits of Python?",
           "Can you describe a challenging problem you solved using Python?",
           "What are some best practices when working with Python?",
           "What are the main features and benefits of React?",
           "Can you describe a challenging problem you solved using React?"])
    ∧ (∀ ts e1 e2, generate_tech_questions ts e1 = generate_tech_questions ts e2) :=
  ⟨by decide, fun _ => rfl, fun _ _ _ => rfl⟩

/-- C1: at step `name` with input "John Smith", get_response advances the
step to `email` but returns the caller's record unchanged (its name field
still holds the initial empty string), because the updated copy produced by
update_candidate_info — whose name field does become "John Smith" — is
discarded inside get_response. -/
theorem C1_name_update_discarded :
    get_response (stateAt "name") [{ role := "user", content := "John Smith" }] appInitialInfo
      = some ("Thank you. What's your email address?", stateAt "email", appInitialInfo)
    ∧ (update_candidate_info "name" "John Smith" appInitialInfo).name = some "John Smith"
    ∧ appInitialInfo.name = some "" := by decide

/-- C6: the chatbot-path phone check accepts exactly the inputs with at
least 10 digit characters, the utility check accepts exactly those with 10
to 15, and every input with 16 or more digits is accepted by the former and
rejected by the latter. -/
theorem C6_phone_validator_divergence :
    (∀ s, validate_response "phone" s = true ↔ 10 ≤ digitCount s)
    ∧ (∀ s, validate_phone s = true ↔ (10 ≤ digitCount s ∧ digitCount s ≤ 15))
    ∧ (∀ s, 16 ≤ digitCount s →
        validate_response "phone" s = true ∧ validate_phone s = false) := by
  have h1 : ∀ s : String, validate_response "phone" s = true ↔ 10 ≤ digitCount s := by
    intro s
    unfold validate_response
    by_cases hemp : s.data.isEmpty
    · have hd : s.data = [] := List.isEmpty_iff.mp hemp
      have hz : digitCount s = 0 := by simp [digitCount, hd]
      simp [hemp, hz]
    · simp [hemp]
  have h2 : ∀ s : String, validate_phone s = true ↔ (10 ≤ digitCount s ∧ digitCount s ≤ 15) := by
    intro s
    simp [validate_phone]
  refine ⟨h1, h2, fun s hs => ⟨(h1 s).mpr (by omega), ?_⟩⟩
  cases hb : validate_phone s with
  | false => rfl
  | true => exact absurd ((h2 s).mp hb).2 (by omega)

/-- C6 witness: a 16-digit input, accepted by the chatbot path and rejected
by the utility check. -/
theorem C6_phone_validator_divergence_witness :
    validate_response "phone" "1234567890123456" = true
    ∧ validate_phone "1234567890123456" = false :=
  C6_phone_validator_divergence.2.2 "1234567890123456" (by decide)

/-- C4: for every started session, whatever the current step, a latest user
message containing an exit keyword as a substring of its lower-cased text
makes get_response return the fixed farewell, with state and caller record
untouched (no validation, no update, no step advance). -/
theorem C4_exit_keyword_ends (st : BotState) (messages : List ChatMessage)
    (ci : CandidateInfo) (kw : String)
    (hstart : st.conversation_started = true)
    (hkw : kw ∈ exit_keywords)
    (hsub : containsSub kw.data (pyLower (lastContent messages).data) = true) :
    get_response st messages ci = some (farewell_message, st, ci) := by
  have hend : should_end_conversation (lastContent messages) = true :=
    List.any_eq_true.mpr ⟨kw, hkw, hsub⟩
  unfold get_response
  rw [hstart]
  simp [hend]

/-- C4 witness: "I quit this" at step `phone` ends the conversation. -/
theorem C4_exit_keyword_ends_witness :
    get_response (stateAt "phone") [{ role := "user", content := "I quit this" }] appInitialInfo
      = some (farewell_message, stateAt "phone", appInitialInfo) :=
  C4_exit_keyword_ends (stateAt "phone") [{ role := "user", content := "I quit this" }]
    appInitialInfo "quit" rfl (by decide) (by decide)

/-- C3 counterexample: at step `name`, the whitespace-only raw input "   "
is accepted by validate_response (only the empty string is falsy), and the
orchestrator then advances the step instead of re-prompting. -/
theorem C3_whitespace_accepted_counterexample :
    validate_response "name" "   " = true
    ∧ get_response (stateAt "name") [{ role := "user", content := "   " }] appInitialInfo
        = some ("Thank you. What's your email address?", stateAt "email", appInitialInfo) := by
  decide

/-- stripTagsFuel leaves any `<`-free list unchanged, for every fuel. -/
theorem stripTagsFuel_of_no_lt :
    ∀ (fuel : Nat) (l : List Char), '<' ∉ l → stripTagsFuel fuel l = l := by
  intro fuel
  induction fuel with
  | zero => intro l _; rfl
  | succ n ih =>
    intro l hl
    cases l with
    | nil => rfl
    | cons c rest =>
      have hc : ¬(c = '<') := by
        intro h
        subst h
        exact hl (List.mem_cons_self _ _)
      have hrest : '<' ∉ rest := fun h => hl (List.mem_cons_of_mem c h)
      simp [stripTagsFuel, hc, ih rest hrest]

/-- stripTags leaves any `<`-free list unchanged. -/
theorem stripTags_of_no_lt (l : List Char) (h : '<' ∉ l) : stripTags l = l :=
  stripTagsFuel_of_no_lt l.length l h

/-- A whitespace character is not one of the deleted characters. -/
theorem isWhitespace_not_banned (c : Char) (h : c.isWhitespace = true) :
    isBannedChar c = false := by
  simp only [Char.isWhitespace, Bool.or_eq_true, decide_eq_true_eq] at h
  obtain ((h | h) | h) | h := h <;> subst h <;> rfl

/-- Sanitizing a whitespace-only string yields the empty string. -/
theorem sanitize_input_of_whitespace (w : String)
    (h : w.data.all Char.isWhitespace = true) : sanitize_input w = "" := by
  have hall := List.all_eq_true.mp h
  have hlt : '<' ∉ w.data := fun hm => absurd (hall _ hm) (by decide)
  have hfilter : (stripTags w.data).filter (fun c => !isBannedChar c) = w.data := by
    rw [stripTags_of_no_lt w.data hlt]
    apply List.filter_eq_self.mpr
    intro c hc
    rw [isWhitespace_not_banned c (hall c hc)]
    rfl
  have hdrop : w.data.dropWhile Char.isWhitespace = [] :=
    List.dropWhile_eq_nil_iff.mpr hall
  unfold sanitize_input
  rw [hfilter]
  unfold pyStrip
  rw [hdrop]
  rfl

/-- The validator rejects the empty string at every step. -/
theorem validate_response_empty (step : String) : validate_response step "" = false := rfl

/-- C3 (amended): an empty latest input is rejected at every step other
than `tech_questions` — validate_response returns false and get_response
re-emits the step's prompt behind the rejection prefix, leaving the step
and the caller's record unchanged; a whitespace-only input is rejected only
after the UI's sanitization pass, which maps it to the empty string
(validate_response itself accepts raw whitespace-only input at the steps
with no field-specific check, as the counterexample shows). -/
theorem C3_empty_input_rejected_amended :
    (∀ st messages ci, st.conversation_started = true →
      ¬(st.current_step = "tech_questions") → lastContent messages = "" →
      get_response st messages ci = some (rejection_message st.current_step, st, ci))
    ∧ (∀ step w, w.data.all Char.isWhitespace = true →
        validate_response step (sanitize_input w) = false) := by
  constructor
  · intro st messages ci hstart hstep hlast
    have hend : should_end_conversation "" = false := by decide
    unfold get_response
    rw [hstart]
    simp [hlast, hend, hstep, validate_response_empty]
  · intro step w hw
    rw [sanitize_input_of_whitespace w hw]
    exact validate_response_empty step

/-- C3 witness: the empty input at step `email` is re-prompted with the
rejection prefix, and a sanitized whitespace-only input fails validation. -/
theorem C3_empty_input_rejected_amended_witness :
    get_response (stateAt "email") [{ role := "user", content := "" }] appInitialInfo
      = some (rejection_message "email", stateAt "email", appInitialInfo)
    ∧ validate_response "name" (sanitize_input " \t ") = false :=
  ⟨C3_empty_input_rejected_amended.1 (stateAt "email") [{ role := "user", content := "" }]
      appInitialInfo rfl (by decide) rfl,
   C3_empty_input_rejected_amended.2 "name" " \t " (by decide)⟩

/-- C5: the question set is generated exactly once per session. On a call
with an empty cache, handle_tech_questions derives the set from the
record's tech_stack and experience, caches it, resets the index to 0, and
returns the intro naming the tech stack plus question 1, leaving the record
untouched. On every call with a non-empty cache, the cached set is reused
unchanged, the index is incremented, and once it reaches the set's length
the record's tech_questions_asked is set to true with the closing message
returned; otherwise the next cached question is returned. -/
theorem C5_questions_generated_once :
    (∀ st ci resp ts ex, st.tech_questions_cache = [] →
      ci.tech_stack = some ts → ci.experience = some ex →
      handle_tech_questions st ci resp
        = some (intro_message ts ((generate_tech_questions ts ex).headD ""),
                { st with tech_questions_cache := generate_tech_questions ts ex,
                          current_question_index := 0 }, ci))
    ∧ (∀ st ci resp out, ¬(st.tech_questions_cache = []) →
        handle_tech_questions st ci resp = some out →
        out.2.1.tech_questions_cache = st.tech_questions_cache
        ∧ out.2.1.current_question_index = st.current_question_index + 1
        ∧ (if st.tech_questions_cache.length ≤ st.current_question_index + 1
           then out.1 = closing_message
             ∧ out.2.2 = { ci with tech_questions_asked := some true }
           else out.2.2 = ci
             ∧ ∃ q, st.tech_questions_cache.get? (st.current_question_index + 1) = some q
                 ∧ out.1 = next_question_message (st.current_question_index + 1) q)) := by
  constructor
  · intro st ci resp ts ex hcache hts hex
    unfold handle_tech_questions
    rw [hcache, hts, hex]
    simp [generate_tech_questions_get_zero]
  · intro st ci resp out hcache hout
    have hne : st.tech_questions_cache.isEmpty = false := by
      rw [← Bool.not_eq_true, List.isEmpty_iff]
      exact hcache
    unfold handle_tech_questions at hout
    rw [hne] at hout
    simp only [Bool.false_eq_true, if_false] at hout
    by_cases hlen : st.tech_questions_cache.length ≤ st.current_question_index + 1
    · rw [if_pos hlen] at hout
      injection hout with h
      subst h
      refine ⟨rfl, rfl, ?_⟩
      rw [if_pos hlen]
      exact ⟨rfl, rfl⟩
    · rw [if_neg hlen] at hout
      obtain ⟨q, hq⟩ :
          ∃ q, st.tech_questions_cache.get? (st.current_question_index + 1) = some q := by
        cases hg : st.tech_questions_cache.get? (st.current_question_index + 1) with
        | some q => exact ⟨q, rfl⟩
        | none => exact absurd (List.get?_eq_none.mp hg) hlen
      rw [hq] at hout
      injection hout with h
      subst h
      refine ⟨rfl, rfl, ?_⟩
      rw [if_neg hlen]
      exact ⟨rfl, q, hq, rfl⟩

/-- C5 witness: first entry generates, caches and returns question 1 for
the session's (empty) tech stack. -/
theorem C5_questions_generated_once_witness :
    handle_tech_questions (stateAt "tech_questions") appInitialInfo ""
      = some (intro_message [] ((generate_tech_questions [] "").headD ""),
              { stateAt "tech_questions" with
                  tech_questions_cache := generate_tech_questions [] "",
                  current_question_index := 0 }, appInitialInfo) :=
  C5_questions_generated_once.1 (stateAt "tech_questions") appInitialInfo "" [] "" rfl rfl rfl

/-- The first element surviving dropWhile fails the predicate. -/
theorem dropWhile_head?_not {α : Type} (p : α → Bool) (l : List α) :
    ((l.dropWhile p).head?.all fun c => !p c) = true := by
  induction l with
  | nil => rfl
  | cons c rest ih =>
    by_cases hc : p c = true
    · simpa [List.dropWhile_cons, hc] using ih
    · have hf : p c = false := by
        revert hc
        cases p c <;> simp
      simp [List.dropWhile_cons, hf]

/-- dropWhile only removes a leading segment, so it preserves the last
element of any list it leaves non-empty. -/
theorem dropWhile_getLast?_of_ne_nil {α : Type} (p : α → Bool) :
    ∀ l : List α, l.dropWhile p ≠ [] → (l.dropWhile p).getLast? = l.getLast? := by
  intro l
  induction l with
  | nil => intro h; exact absurd rfl h
  | cons c rest ih =>
    intro h
    by_cases hc : p c = true
    · rw [List.dropWhile_cons, if_pos hc] at h ⊢
      rw [ih h]
      cases rest with
      | nil => exact absurd rfl h
      | cons d rest2 => exact List.getLast?_cons_cons.symm
    · rw [List.dropWhile_cons, if_neg hc]

/-- Characters of the stripped list come from the original list. -/
theorem mem_pyStrip (c : Char) (l : List Char) (h : c ∈ pyStrip l) : c ∈ l := by
  unfold pyStrip at h
  rw [List.mem_reverse] at h
  have h2 := (List.dropWhile_sublist _).subset h
  rw [List.mem_reverse] at h2
  exact (List.dropWhile_sublist _).subset h2

/-- pyStrip output neither starts nor ends with whitespace. -/
theorem pyStrip_ends_not_whitespace (l : List Char) :
    ((pyStrip l).head?.all fun c => !c.isWhitespace) = true
    ∧ ((pyStrip l).getLast?.all fun c => !c.isWhitespace) = true := by
  constructor
  · unfold pyStrip
    rw [List.head?_reverse]
    by_cases hB : (l.dropWhile Char.isWhitespace).reverse.dropWhile Char.isWhitespace = []
    · rw [hB]
      rfl
    · rw [dropWhile_getLast?_of_ne_nil _ _ hB, List.getLast?_reverse]
      exact dropWhile_head?_not _ _
  · unfold pyStrip
    rw [List.getLast?_reverse]
    exact dropWhile_head?_not _ _

/-- C7: sanitize_input removes tag substrings, then the characters `;`,
backslash and `/`, then trims; on the spec's example it returns
"alert(1)hello worldtest", and in general its output is always a string
containing none of the three removed characters and no leading or trailing
whitespace. -/
theorem C7_sanitize_behaviour :
    sanitize_input "<script>alert(1)</script>hello; world/test" = "alert(1)hello worldtest"
    ∧ (∀ text, (sanitize_input text).data.filter isBannedChar = [])
    ∧ (∀ text, ((sanitize_input text).data.head?.all fun c => !c.isWhitespace) = true
        ∧ ((sanitize_input text).data.getLast?.all fun c => !c.isWhitespace) = true) := by
  refine ⟨by decide, ?_, ?_⟩
  · intro text
    apply List.filter_eq_nil_iff.mpr
    intro c hc
    have hc2 : c ∈ pyStrip ((stripTags text.data).filter (fun c => !isBannedChar c)) := hc
    have hmem := mem_pyStrip c _ hc2
    have hp := List.of_mem_filter hmem
    rw [Bool.not_eq_true'] at hp
    simp [hp]
  · intro text
    exact pyStrip_ends_not_whitespace _

/-- Deduplication does not change the underlying finite set. -/
theorem list_toFinset_dedup (L : List String) : L.dedup.toFinset = L.toFinset := by
  ext w
  simp [List.mem_toFinset, List.mem_dedup]

/-- Counting the distinct tokens that belong to a keyword list equals the
cardinality of the intersection of the two finite sets. -/
theorem dedup_filter_length_eq_inter_card (L P : List String) :
    (L.dedup.filter (fun w => P.contains w)).length = (L.toFinset ∩ P.toFinset).card := by
  rw [← List.toFinset_card_of_nodup ((L.nodup_dedup).filter _)]
  rw [List.toFinset_filter, list_toFinset_dedup]
  congr 1
  ext w
  simp [Finset.mem_filter, Finset.mem_inter, List.mem_toFinset, List.contains]

/-- C8: analyze_sentiment lower-cases, splits on whitespace into a set of
tokens, and compares the sizes of the intersections with the fixed positive
and negative keyword sets: strictly more positive shared tokens gives
"positive", strictly more negative gives "negative", a tie (including 0/0)
gives "neutral"; the spec's three examples classify as stated. -/
theorem C8_sentiment_classifier :
    (∀ text, analyze_sentiment text =
        if negativeShared text < positiveShared text then "positive"
        else if positiveShared text < negativeShared text then "negative"
        else "neutral")
    ∧ analyze_sentiment "This was a great and amazing experience" = "positive"
    ∧ analyze_sentiment "This is hard and a difficult problem" = "negative"
    ∧ analyze_sentiment "I work with Java" = "neutral" := by
  refine ⟨?_, by decide, by decide, by decide⟩
  intro text
  simp only [analyze_sentiment, positiveShared, negativeShared,
    ← dedup_filter_length_eq_inter_card]

/-- handle_tech_questions either returns the dictionary it was given
unchanged, or with only tech_questions_asked set to true. -/
theorem handle_tech_questions_frame (st : BotState) (ci : CandidateInfo) (r : String)
    (out : String × BotState × CandidateInfo)
    (h : handle_tech_questions st ci r = some out) :
    out.2.2 = ci ∨ out.2.2 = { ci with tech_questions_asked := some true } := by
  simp only [handle_tech_questions] at h
  split at h
  · split at h
    · split at h
      · injection h with h2
        subst h2
        left
        rfl
      · exact Option.noConfusion h
    · exact Option.noConfusion h
  · split at h
    · injection h with h2
      subst h2
      right
      rfl
    · split at h
      · injection h with h2
        subst h2
        left
        rfl
      · exact Option.noConfusion h

/-- C9: across every successful call of get_response, the caller's mapping
is returned either unchanged or with only its tech_questions_asked key set
to true (when the technical questions are exhausted); every other key —
name, email, phone, experience, position, location, tech_stack,
sentiment_history — keeps its value, because update_candidate_info works on
a copy that get_response then discards. -/
theorem C9_caller_record_frame (st : BotState) (messages : List ChatMessage)
    (ci : CandidateInfo) (out : String × BotState × CandidateInfo)
    (h : get_response st messages ci = some out) :
    out.2.2 = ci ∨ out.2.2 = { ci with tech_questions_asked := some true } := by
  simp only [get_response] at h
  split at h
  · injection h with h2
    subst h2
    left
    rfl
  · split at h
    · injection h with h2
      subst h2
      left
      rfl
    · split at h
      · exact handle_tech_questions_frame _ _ _ _ h
      · split at h
        · injection h with h2
          subst h2
          left
          rfl
        · split at h
          · split at h
            · injection h with h2
              subst h2
              left
              rfl
            · exact Option.noConfusion h
          · injection h with h2
            subst h2
            left
            rfl

set_option maxRecDepth 10000 in
/-- C9 witness: a call that exhausts the technical questions returns the
caller's record with only tech_questions_asked flipped to true. -/
theorem C9_caller_record_frame_witness :
    exhaustOut.2.2 = appInitialInfo
    ∨ exhaustOut.2.2 = { appInitialInfo with tech_questions_asked := some true } :=
  C9_caller_record_frame exhaustState [{ role := "user", content := "my answer" }]
    appInitialInfo exhaustOut (by decide)
